import Mathlib

/-!
Verification of the compilation-request orchestrator's statistics and
configuration components of this repository, shallowly embedded in Lean.

The embedding follows `src/lib/stats.ts` and the production configuration
file (`src/unnamed/part_000`).  Components of the orchestrator whose code
is not among the sources (the de-duplication registry, the hash helper
`getHash` of `lib/utils.ts`, the request type of `lib/handlers/compile.ts`)
are modelled from the specification and marked as such in their doc
comments.
-/

namespace CompilerExplorer

/-! ## JavaScript `Date` model

A UTC instant, represented by its calendar components (`month` is the
1-based calendar month, as written in ISO 8601).  The ECMAScript accessors
`getUTCFullYear`, `getUTCMonth`, `getUTCDate` and `toISOString` are defined
on it following the ECMAScript specification: `getUTCMonth` returns the
zero-based month (`MonthFromTime`, 0 = January), while `toISOString`
prints the 1-based month. -/
structure JsDate where
  year : Nat
  month : Nat
  day : Nat
  hour : Nat
  minute : Nat
  second : Nat
  ms : Nat
  deriving Repr, DecidableEq

def JsDate.getUTCFullYear (d : JsDate) : Nat := d.year

/-- ECMAScript `Date.prototype.getUTCMonth`: zero-based month (January is 0). -/
def JsDate.getUTCMonth (d : JsDate) : Nat := d.month - 1

/-- ECMAScript `Date.prototype.getUTCDate`: 1-based day of month. -/
def JsDate.getUTCDate (d : JsDate) : Nat := d.day

def pad2 (n : Nat) : String :=
  if n < 10 then "0" ++ toString n else toString n

def pad3 (n : Nat) : String :=
  if n < 10 then "00" ++ toString n
  else if n < 100 then "0" ++ toString n
  else toString n

def pad4 (n : Nat) : String :=
  if n < 10 then "000" ++ toString n
  else if n < 100 then "00" ++ toString n
  else if n < 1000 then "0" ++ toString n
  else toString n

/-- ECMAScript `Date.prototype.toISOString`:
`YYYY-MM-DDTHH:mm:ss.sssZ`, month printed 1-based. -/
def JsDate.toISOString (d : JsDate) : String :=
  pad4 d.year ++ "-" ++ pad2 d.month ++ "-" ++ pad2 d.day ++ "T" ++
    pad2 d.hour ++ ":" ++ pad2 d.minute ++ ":" ++ pad2 d.second ++ "." ++
    pad3 d.ms ++ "Z"

/-! ## Request model (`lib/handlers/compile.ts` is not among the sources) -/

/-- A filter value as found in `request.filters`: JavaScript values that are
either booleans (`typeof value === 'boolean'`) or something else. -/
inductive FilterVal where
  | bool (b : Bool)
  | other (s : String)
  deriving Repr, DecidableEq

/-- Modelled from the spec: `ParsedRequest` (`lib/handlers/compile.ts`, not
among the sources).  It carries the fields `lib/stats.ts` reads — source
text, execution parameters (kept abstract as their serialised form),
option tokens, filters, the `bypassCache` flag — plus two fields the stats
projection does not read (`lang`, `backendOptions`), standing for the rest
of the request. -/
structure ParsedRequest where
  source : String
  executionParameters : String
  options : List String
  filters : List (String × FilterVal)
  bypassCache : Bool
  lang : String
  backendOptions : String
  deriving Repr, DecidableEq

/-- Modelled from the spec: the digest helper `getHash` of `lib/utils.ts`
(not among the sources).  The spec requires only a deterministic,
non-identifying digest of the input; a simple rolling hash rendered as a
decimal string stands in for it. -/
def getHash (s : String) : String :=
  toString (s.foldl (fun h c => (h * 31 + c.toNat) % 1000000007) 7)

/-! ## `lib/stats.ts` -/

/-- `CompilationRecord` from `lib/stats.ts`: the non-identifying
projection of a request that is queued and flushed to S3. -/
structure CompilationRecord where
  time : String
  sourceHash : String
  executionParamsHash : String
  options : List String
  filters : List (String × Bool)
  bypassCache : Bool
  deriving Repr, DecidableEq

/-- `filterCompilerOptions` of `lib/stats.ts`.  `capturableArg` is the
regex matching a leading dash or slash, and `unwantedArg` the regex
matching a leading dash-or-slash followed by one of `iIdD`, or the string
consisting of exactly one dash. -/
def capturableArg (x : String) : Bool :=
  match x.data with
  | c :: _ => c == '-' || c == '/'
  | [] => false

def unwantedArg (x : String) : Bool :=
  match x.data with
  | [c] => c == '-'
  | c1 :: c2 :: _ =>
      (c1 == '-' || c1 == '/') && (c2 == 'i' || c2 == 'I' || c2 == 'd' || c2 == 'D')
  | [] => false

def filterCompilerOptions (args : List String) : List String :=
  args.filter fun x => capturableArg x && !unwantedArg x

/-- The filters projection inside `makeSafe`:
`Object.fromEntries(Object.entries(request.filters).filter(v => typeof v[1] === 'boolean'))`. -/
def safeFilters (fs : List (String × FilterVal)) : List (String × Bool) :=
  fs.filterMap fun p =>
    match p.2 with
    | .bool b => some (p.1, b)
    | .other _ => none

/-- `makeSafe` of `lib/stats.ts`. -/
def makeSafe (time : JsDate) (request : ParsedRequest) : CompilationRecord :=
  { time := time.toISOString
    sourceHash := getHash request.source
    executionParamsHash := getHash request.executionParameters
    options := filterCompilerOptions request.options
    filters := safeFilters request.filters
    bypassCache := request.bypassCache }

/-- `makeKey` of `lib/stats.ts`:
`year=${now.getUTCFullYear()}/month=${now.getUTCMonth()}/date=${now.getUTCDate()}/${now.toISOString()}.json`. -/
def makeKey (now : JsDate) : String :=
  "year=" ++ toString now.getUTCFullYear ++ "/month=" ++ toString now.getUTCMonth ++
    "/date=" ++ toString now.getUTCDate ++ "/" ++ now.toISOString ++ ".json"

/-! ## `StatsNoter` of `lib/stats.ts`, as a state machine

The class owns a queue `_statsQueue`, a pending-timer handle `_flushJob`
and an S3 client.  Its methods are embedded as transitions on an explicit
state; S3 writes issued so far are recorded in a `writes` log (the code
fires them asynchronously and ignores the outcome except for logging). -/

/-- AWS S3 storage classes used by `lib/stats.ts`. -/
inductive StorageClass where
  | standard
  | reducedRedundancy
  deriving Repr, DecidableEq

/-- One `S3Bucket.put` call as issued by `StatsNoter.flush`. -/
structure S3Write where
  key : String
  body : String
  path : String
  redundancy : StorageClass
  deriving Repr, DecidableEq

/-- JSON string escaping as performed by `JSON.stringify` on the string
fields of a `CompilationRecord` (quote, backslash and the common control
characters; the record's strings contain nothing else). -/
def jsonEscape (s : String) : String :=
  s.data.foldl
    (fun acc c =>
      if c == '"' then acc ++ "\\\""
      else if c == '\\' then acc ++ "\\\\"
      else if c == '\n' then acc ++ "\\n"
      else if c == '\r' then acc ++ "\\r"
      else if c == '\t' then acc ++ "\\t"
      else acc.push c)
    ""

def jsonStr (s : String) : String := "\"" ++ jsonEscape s ++ "\""

def jsonStrList (xs : List String) : String :=
  "[" ++ String.intercalate "," (xs.map jsonStr) ++ "]"

def jsonBool (b : Bool) : String := if b then "true" else "false"

def jsonBoolObj (fs : List (String × Bool)) : String :=
  "\x7b" ++ String.intercalate "," (fs.map fun p => jsonStr p.1 ++ ":" ++ jsonBool p.2) ++ "\x7d"

/-- `JSON.stringify` of a `CompilationRecord`, with fields in insertion
order as produced by `makeSafe`. -/
def recordToJson (r : CompilationRecord) : String :=
  "\x7b\"time\":" ++ jsonStr r.time ++
    ",\"sourceHash\":" ++ jsonStr r.sourceHash ++
    ",\"executionParamsHash\":" ++ jsonStr r.executionParamsHash ++
    ",\"options\":" ++ jsonStrList r.options ++
    ",\"filters\":" ++ jsonBoolObj r.filters ++
    ",\"bypassCache\":" ++ jsonBool r.bypassCache ++ "\x7d"

/-- The body of the single batch write of `StatsNoter.flush`:
`toFlush.map(x => JSON.stringify(x)).join('\n')`. -/
def mkStatsBody (records : List CompilationRecord) : String :=
  String.intercalate "\n" (records.map recordToJson)

/-- The mutable state of a `StatsNoter`: `_statsQueue`, `_flushJob`
(`some delay` when a timer is pending), and the log of S3 `put` calls
issued so far. -/
structure NoterState where
  statsQueue : List CompilationRecord
  flushJob : Option Nat
  writes : List S3Write
  deriving Repr, DecidableEq

/-- `StatsNoter.noteCompilation`: pushes `makeSafe(new Date(), request)`
onto `_statsQueue` and, when no flush timer is pending, schedules one
after `_flushAfterMs`. -/
def noteCompilation (flushAfterMs : Nat) (now : JsDate) (request : ParsedRequest)
    (s : NoterState) : NoterState :=
  let s1 : NoterState := { s with statsQueue := s.statsQueue ++ [makeSafe now request] }
  if s1.flushJob.isNone then { s1 with flushJob := some flushAfterMs } else s1

/-- `StatsNoter.flush`: takes the queue, replaces it by `[]`, issues one
asynchronous `S3Bucket.put` of the newline-joined serialised records under
`makeKey(new Date())` with `StorageClass.REDUCED_REDUNDANCY`, and clears
any pending timer.  (`if (toFlush)` in the code is always true: a
JavaScript array is truthy even when empty.) -/
def flush (path : String) (now : JsDate) (s : NoterState) : NoterState :=
  { statsQueue := []
    flushJob := none
    writes := s.writes ++
      [{ key := makeKey now, body := mkStatsBody s.statsQueue, path := path,
         redundancy := StorageClass.reducedRedundancy }] }

/-- The rejection handler of the S3 put in `StatsNoter.flush`
(`.catch(e => { logger.warn(...) })`): it only logs, leaving the noter's
state untouched — in particular the already-cleared records are not
re-queued. -/
def onFlushError (s : NoterState) : NoterState := s

/-- `_flushAfterMs` as computed by the `StatsNoter` constructor:
`props('compilationStatsNotifierFlushMs', 5 * 60 * 1000)`. -/
def statsNoterFlushAfterMs (props : String → Option Nat) : Nat :=
  (props "compilationStatsNotifierFlushMs").getD (5 * 60 * 1000)

/-- The kind of noter `createStatsNoter` constructs. -/
inductive NoterKind where
  | nullNoter
  | s3Noter
  deriving Repr, DecidableEq

/-- `createStatsNoter` of `lib/stats.ts`: dispatches on the exact value of
the `compilationStatsNotifier` property (default `''`); anything other
than `'none'` or `'S3'` throws `Unknown stats type '<type>'`. -/
def createStatsNoter (props : String → Option String) : Except String NoterKind :=
  let type := (props "compilationStatsNotifier").getD ""
  match type with
  | "none" => Except.ok NoterKind.nullNoter
  | "S3" => Except.ok NoterKind.s3Noter
  | _ => Except.error ("Unknown stats type '" ++ type ++ "'")

/-! ## Production configuration (`src/unnamed/part_000`)

The key/value pairs of the production properties file that the claims
refer to, verbatim. -/

def prodConfig : List (String × String) :=
  [("compileTimeoutMs", "20000"),
   ("maxConcurrentCompiles", "2"),
   ("proxyRetries", "10"),
   ("proxyRetryMs", "500"),
   ("compilationStatsNotifier", "S3(compiler-explorer-logs,compile-stats,us-east-1,15m)"),
   ("compilationStaleAfterMs", "60000")]

def prodProp (key : String) : Option String := prodConfig.lookup key

/-- Modelled from the spec: the properties loader (not among the sources)
parses numeric settings as decimal naturals. -/
def parseNat (s : String) : Option Nat :=
  if s.data.isEmpty then none
  else if s.data.all (fun c => c.isDigit) then
    some (s.data.foldl (fun n c => n * 10 + (c.toNat - 48)) 0)
  else none

def prodNatProp (key : String) : Nat := ((prodProp key).bind parseNat).getD 0

/-- `proxyRetries` in the production configuration. -/
def proxyRetries : Nat := prodNatProp "proxyRetries"

/-- `proxyRetryMs` in the production configuration. -/
def proxyRetryMs : Nat := prodNatProp "proxyRetryMs"

/-- `compilationStaleAfterMs` in the production configuration. -/
def compilationStaleAfterMs : Nat := prodNatProp "compilationStaleAfterMs"

/-! ## Orchestrator de-duplication registry

Modelled from the spec: the orchestrator's in-flight work registry
("a registry of in-flight work keyed by Fingerprint, exclusively owned by
the orchestrator, mutated under a single serialization point") is not
among the sources; only `lib/stats.ts` and configuration are.  The model
below follows spec sections 3, 4.3, 4.4 and 9: a request arrival for a
fingerprint with an outstanding unit of work attaches to it; otherwise a
fresh unit (a local `PendingSlot` or a `RemoteJob`, chosen by whether the
target architecture runs locally) is created and one driver/worker
invocation is started; completion or abandonment removes the unit. -/

/-- The kind of an outstanding unit of work: a local execution's
`PendingSlot` or a `RemoteJob`. -/
inductive WorkKind where
  | pendingSlot
  | remoteJob
  deriving Repr, DecidableEq

/-- One outstanding unit of work, keyed by a job id distinct from the
fingerprint. -/
structure WorkUnit where
  id : Nat
  fingerprint : Nat
  kind : WorkKind
  deriving Repr, DecidableEq

/-- The orchestrator's shared mutable state: the in-flight registry, a
fresh-id counter, the log of driver/worker invocations started (unit id,
fingerprint), and a count of coalesced attachments. -/
structure OrchState where
  inflight : List WorkUnit
  nextId : Nat
  invocations : List (Nat × Nat)
  attachments : Nat
  deriving Repr, DecidableEq

/-- Events the registry reacts to: a request arrival for a fingerprint,
and completion (or staleness abandonment) of the unit with a given id. -/
inductive OrchEvent where
  | arrive (f : Nat)
  | complete (uid : Nat)
  deriving Repr, DecidableEq

/-- Modelled from the spec: one serialized transition of the registry.
An arrival finding an in-flight unit for its fingerprint attaches to it
(no new invocation); otherwise it registers a fresh unit and starts
exactly one driver/worker invocation.  Completion removes the unit. -/
def orchStep (isRemote : Nat → Bool) (s : OrchState) (e : OrchEvent) : OrchState :=
  match e with
  | .arrive f =>
      match s.inflight.find? (fun u => u.fingerprint == f) with
      | some _ => { s with attachments := s.attachments + 1 }
      | none =>
          { inflight :=
              { id := s.nextId, fingerprint := f,
                kind := if isRemote f then WorkKind.remoteJob else WorkKind.pendingSlot } ::
                s.inflight
            nextId := s.nextId + 1
            invocations := (s.nextId, f) :: s.invocations
            attachments := s.attachments }
  | .complete uid => { s with inflight := s.inflight.filter fun u => !(u.id == uid) }

def orchInit : OrchState := { inflight := [], nextId := 0, invocations := [], attachments := 0 }

def runOrch (isRemote : Nat → Bool) (events : List OrchEvent) : OrchState :=
  events.foldl (orchStep isRemote) orchInit

/-- The de-duplication invariant: at most one in-flight unit of work per
fingerprint. -/
def OrchInv (s : OrchState) : Prop :=
  ∀ f : Nat, s.inflight.countP (fun u => u.fingerprint == f) ≤ 1

/-! ## Claim-side characterisation of `filterCompilerOptions` -/

/-- The claim's description of a kept option token: it begins with a dash
or a slash, does not begin with any of the eight two-character prefixes
dash-or-slash followed by `i`, `I`, `d`, `D`, and is not the one-character
token consisting of exactly a dash. -/
def specKeptOption (x : String) : Bool :=
  (List.isPrefixOf ['-'] x.data || List.isPrefixOf ['/'] x.data) &&
  !(List.isPrefixOf ['-', 'i'] x.data || List.isPrefixOf ['-', 'I'] x.data ||
    List.isPrefixOf ['-', 'd'] x.data || List.isPrefixOf ['-', 'D'] x.data ||
    List.isPrefixOf ['/', 'i'] x.data || List.isPrefixOf ['/', 'I'] x.data ||
    List.isPrefixOf ['/', 'd'] x.data || List.isPrefixOf ['/', 'D'] x.data) &&
  !(x.data == ['-'])

/-! ## Sample data used by concrete witnesses and counterexamples -/

def sampleDate : JsDate :=
  { year := 2024, month := 1, day := 15, hour := 12, minute := 30, second := 45, ms := 123 }

def sampleRequest : ParsedRequest :=
  { source := "int main() \x7b return 0; \x7d"
    executionParameters := "args:"
    options := ["-O2", "-Iinclude", "source.cpp"]
    filters := [("binary", FilterVal.bool false), ("commentOnly", FilterVal.bool true),
                ("extra", FilterVal.other "x")]
    bypassCache := false
    lang := "c++"
    backendOptions := "" }

def sampleRecord : CompilationRecord := makeSafe sampleDate sampleRequest

/-! ## Helper lemmas -/

set_option maxHeartbeats 1000000 in
/-- Pointwise agreement of the source's regex-based option filter with the
claim's prefix-based characterisation. -/
lemma keptOption_eq (x : String) :
    (capturableArg x && !unwantedArg x) = specKeptOption x := by
  rw [Bool.eq_iff_iff]
  obtain ⟨l⟩ := x
  match l with
  | [] =>
      simp [capturableArg, unwantedArg, specKeptOption, List.isPrefixOf]
  | [c] =>
      simp [capturableArg, unwantedArg, specKeptOption, List.isPrefixOf]
      simp only [eq_comm]
      exact fun _ => trivial
  | c1 :: c2 :: t =>
      simp [capturableArg, unwantedArg, specKeptOption, List.isPrefixOf]
      simp only [eq_comm]
      itauto

/-- A step of the de-duplication registry preserves the at-most-one
in-flight unit per fingerprint invariant. -/
lemma orchStep_inv (isRemote : Nat → Bool) (s : OrchState) (e : OrchEvent)
    (h : OrchInv s) : OrchInv (orchStep isRemote s e) := by
  cases e with
  | arrive f =>
      cases hfind : s.inflight.find? (fun u => u.fingerprint == f) with
      | some u =>
          intro g
          simpa [orchStep, hfind] using h g
      | none =>
          intro g
          have hzero : ∀ g', (∀ u ∈ s.inflight, ¬(u.fingerprint == g')) →
              s.inflight.countP (fun u => u.fingerprint == g') = 0 :=
            fun g' hg' => List.countP_eq_zero.mpr hg'
          by_cases hf : f = g
          · subst hf
            have h0 : s.inflight.countP (fun u => u.fingerprint == f) = 0 :=
              hzero f (List.find?_eq_none.mp hfind)
            simp [orchStep, hfind, List.countP_cons, h0]
          · have := h g
            simp only [orchStep, hfind, List.countP_cons]
            simpa [hf] using this
  | complete uid =>
      intro g
      exact le_trans ((List.filter_sublist _).countP_le _) (h g)

/-- Folding registry steps from an invariant state stays invariant. -/
lemma orch_foldl_inv (isRemote : Nat → Bool) (events : List OrchEvent) :
    ∀ s : OrchState, OrchInv s → OrchInv (events.foldl (orchStep isRemote) s) := by
  induction events with
  | nil => exact fun s h => h
  | cons e rest ih => exact fun s h => ih _ (orchStep_inv isRemote s e h)

/-- Every reachable registry state satisfies the invariant. -/
lemma orchInv_runOrch (isRemote : Nat → Bool) (events : List OrchEvent) :
    OrchInv (runOrch isRemote events) := by
  have h0 : OrchInv orchInit := fun f => by simp [orchInit]
  exact orch_foldl_inv isRemote events orchInit h0

/-! ## Claim theorems -/

/-- C1: in every reachable orchestrator state there is at most one in-flight
unit of work (local PendingSlot or RemoteJob) per fingerprint, and a request
arriving while a unit for its fingerprint is outstanding coalesces onto it:
the in-flight registry and the driver/worker invocation log are left
unchanged rather than a duplicate execution being started. -/
theorem claim_c1_dedup_invariant (isRemote : Nat → Bool) (events : List OrchEvent) (f : Nat) :
    (runOrch isRemote events).inflight.countP (fun u => u.fingerprint == f) ≤ 1 ∧
    ∀ u : WorkUnit,
      (runOrch isRemote events).inflight.find? (fun w => w.fingerprint == f) = some u →
        (orchStep isRemote (runOrch isRemote events) (OrchEvent.arrive f)).invocations =
            (runOrch isRemote events).invocations ∧
          (orchStep isRemote (runOrch isRemote events) (OrchEvent.arrive f)).inflight =
            (runOrch isRemote events).inflight := by
  refine ⟨orchInv_runOrch isRemote events f, ?_⟩
  intro u hu
  constructor <;> simp [orchStep, hu]

/-- Witness for C1 at a concrete trace: after `arrive 5`, a second arrival
for fingerprint 5 starts no new invocation. -/
theorem claim_c1_dedup_invariant_witness :
    (runOrch (fun _ => false) [OrchEvent.arrive 5]).inflight.countP
        (fun u => u.fingerprint == 5) ≤ 1 ∧
    (orchStep (fun _ => false) (runOrch (fun _ => false) [OrchEvent.arrive 5])
        (OrchEvent.arrive 5)).invocations =
      (runOrch (fun _ => false) [OrchEvent.arrive 5]).invocations :=
  ⟨(claim_c1_dedup_invariant (fun _ => false) [OrchEvent.arrive 5] 5).1,
   ((claim_c1_dedup_invariant (fun _ => false) [OrchEvent.arrive 5] 5).2
      { id := 0, fingerprint := 5, kind := WorkKind.pendingSlot } (by rfl)).1⟩

/-- C2: the stats projection is determined only by the declared fields —
requests agreeing on source, executionParameters, options, filters and
bypassCache yield identical records for any timestamp — and the record's
fields are exactly time, sourceHash, executionParamsHash, options, filters
and bypassCache, with source and execution parameters present only as
`getHash` digests. -/
theorem claim_c2_makeSafe_nonidentifying (t : JsDate) (r1 r2 : ParsedRequest)
    (hs : r1.source = r2.source) (he : r1.executionParameters = r2.executionParameters)
    (ho : r1.options = r2.options) (hf : r1.filters = r2.filters)
    (hb : r1.bypassCache = r2.bypassCache) :
    makeSafe t r1 = makeSafe t r2 ∧
    makeSafe t r1 =
      { time := t.toISOString
        sourceHash := getHash r1.source
        executionParamsHash := getHash r1.executionParameters
        options := filterCompilerOptions r1.options
        filters := safeFilters r1.filters
        bypassCache := r1.bypassCache } := by
  constructor
  · simp only [makeSafe, hs, he, ho, hf, hb]
  · rfl

/-- Witness for C2: two concrete requests differing in a non-declared field
(`lang`) produce the same record. -/
theorem claim_c2_makeSafe_nonidentifying_witness :
    makeSafe sampleDate sampleRequest =
        makeSafe sampleDate { sampleRequest with lang := "rust" } ∧
    makeSafe sampleDate sampleRequest =
      { time := sampleDate.toISOString
        sourceHash := getHash sampleRequest.source
        executionParamsHash := getHash sampleRequest.executionParameters
        options := filterCompilerOptions sampleRequest.options
        filters := safeFilters sampleRequest.filters
        bypassCache := sampleRequest.bypassCache } :=
  claim_c2_makeSafe_nonidentifying sampleDate sampleRequest
    { sampleRequest with lang := "rust" } rfl rfl rfl rfl rfl

/-- C3 counterexample: there is no buffer size at which `noteCompilation`
itself triggers a flush — for every proposed threshold there is a state at
or beyond it where `noteCompilation` issues no write and the queue only
grows. -/
theorem claim_c3_counterexample :
    ¬ ∃ n : Nat, ∀ s : NoterState, n ≤ s.statsQueue.length →
        (noteCompilation 300000 sampleDate sampleRequest s).writes ≠ s.writes ∨
        (noteCompilation 300000 sampleDate sampleRequest s).statsQueue.length ≤
          s.statsQueue.length := by
  rintro ⟨n, h⟩
  rcases h { statsQueue := List.replicate n sampleRecord, flushJob := some 300000, writes := [] }
      (by simp) with h1 | h2
  · exact h1 rfl
  · simp [noteCompilation] at h2

/-- C3 (amended): the buffer is flushed and cleared atomically by the flush
timer only; `noteCompilation` never flushes regardless of buffer size — it
appends one record and schedules a timer when none is pending — while
`flush` clears the queue and issues the single batch write. -/
theorem claim_c3_amended_flush_only_on_timer (flushAfterMs : Nat) (path : String)
    (now : JsDate) (r : ParsedRequest) (s : NoterState) :
    (noteCompilation flushAfterMs now r s).writes = s.writes ∧
    (noteCompilation flushAfterMs now r s).statsQueue = s.statsQueue ++ [makeSafe now r] ∧
    (noteCompilation flushAfterMs now r s).flushJob =
      (if s.flushJob.isNone then some flushAfterMs else s.flushJob) ∧
    (flush path now s).statsQueue = [] ∧
    (flush path now s).writes = s.writes ++
      [{ key := makeKey now, body := mkStatsBody s.statsQueue, path := path,
         redundancy := StorageClass.reducedRedundancy }] := by
  cases h : s.flushJob <;> simp [noteCompilation, flush, h]

/-- C4: after every `flush` the queue is empty; the buffer is cleared
before the write is issued (the write's body is built from the old queue
while the new queue is already empty); a write failure only logs, leaving
the state — and in particular the empty queue — untouched, so flushed
records are never re-appended. -/
theorem claim_c4_flush_clears_queue (path : String) (now : JsDate) (s : NoterState) :
    (flush path now s).statsQueue = [] ∧
    (flush path now s).writes = s.writes ++
      [{ key := makeKey now, body := mkStatsBody s.statsQueue, path := path,
         redundancy := StorageClass.reducedRedundancy }] ∧
    onFlushError (flush path now s) = flush path now s ∧
    (onFlushError (flush path now s)).statsQueue = [] :=
  ⟨rfl, rfl, rfl, rfl⟩

/-- C5 counterexample: the key written for a flush at 2024-01-15 UTC uses
`month=0`, not the UTC calendar month 1 the claim asserts — the code uses
`getUTCMonth`, which is zero-based. -/
theorem claim_c5_counterexample :
    makeKey sampleDate = "year=2024/month=0/date=15/2024-01-15T12:30:45.123Z.json" ∧
    makeKey sampleDate ≠ "year=2024/month=1/date=15/2024-01-15T12:30:45.123Z.json" := by
  constructor
  · rfl
  · decide

/-- C5 (amended): each flush performs exactly one batch write whose body is
the newline-joined JSON serialisation of the queued records in noting
order, tagged with the reduced-redundancy storage class, under the
time-partitioned key whose month component is the zero-based UTC month
(calendar month minus one). -/
theorem claim_c5_amended_flush_write (path : String) (now : JsDate) (s : NoterState) :
    (flush path now s).writes = s.writes ++
      [{ key := makeKey now
         body := String.intercalate "\n" (s.statsQueue.map recordToJson)
         path := path
         redundancy := StorageClass.reducedRedundancy }] ∧
    makeKey now = "year=" ++ toString now.year ++ "/month=" ++ toString (now.month - 1) ++
      "/date=" ++ toString now.day ++ "/" ++ now.toISOString ++ ".json" :=
  ⟨rfl, rfl⟩

/-- C6: `noteCompilation` appends exactly one record — `makeSafe` of the
request at the current time — at the end of the queue, leaves every
previously queued record in place, performs no object-store write, and
changes nothing else except scheduling a flush timer when none is
pending. -/
theorem claim_c6_noteCompilation_frame (flushAfterMs : Nat) (now : JsDate)
    (r : ParsedRequest) (s : NoterState) :
    (noteCompilation flushAfterMs now r s).statsQueue = s.statsQueue ++ [makeSafe now r] ∧
    (noteCompilation flushAfterMs now r s).statsQueue.take s.statsQueue.length =
      s.statsQueue ∧
    (noteCompilation flushAfterMs now r s).writes = s.writes ∧
    (noteCompilation flushAfterMs now r s).flushJob =
      (if s.flushJob.isNone then some flushAfterMs else s.flushJob) := by
  cases h : s.flushJob <;>
    simp [noteCompilation, h, List.take_left]

/-- C7: in the production configuration the retry budget
`proxyRetries * proxyRetryMs = 10 * 500ms = 5000ms` does not exceed the
staleness deadline `compilationStaleAfterMs = 60000ms`. -/
theorem claim_c7_retry_budget :
    proxyRetries = 10 ∧ proxyRetryMs = 500 ∧ compilationStaleAfterMs = 60000 ∧
    proxyRetries * proxyRetryMs = 5000 ∧
    proxyRetries * proxyRetryMs ≤ compilationStaleAfterMs :=
  ⟨rfl, rfl, rfl, rfl, by decide⟩

/-- C8: the flush interval is operator-configurable and defaults to five
minutes: with the `compilationStatsNotifierFlushMs` property absent the
constructor uses exactly 300000 ms, and with it present it uses the
configured value. -/
theorem claim_c8_flush_interval_default (props : String → Option Nat)
    (h : props "compilationStatsNotifierFlushMs" = none) :
    statsNoterFlushAfterMs props = 300000 ∧ 5 * 60 * 1000 = 300000 ∧
    ∀ (q : String → Option Nat) (n : Nat),
      q "compilationStatsNotifierFlushMs" = some n → statsNoterFlushAfterMs q = n := by
  refine ⟨?_, rfl, ?_⟩
  · simp [statsNoterFlushAfterMs, h]
  · intro q n hq
    simp [statsNoterFlushAfterMs, hq]

/-- Witness for C8: a property getter with no configured interval uses
300000 ms. -/
theorem claim_c8_flush_interval_default_witness :
    statsNoterFlushAfterMs (fun _ => none) = 300000 ∧ 5 * 60 * 1000 = 300000 :=
  ⟨(claim_c8_flush_interval_default (fun _ => none) rfl).1,
   (claim_c8_flush_interval_default (fun _ => none) rfl).2.1⟩

/-- C9: `filterCompilerOptions` returns exactly the tokens beginning with a
dash or slash, excluding those beginning with `-i`, `-I`, `-d`, `-D`,
`/i`, `/I`, `/d`, `/D` and the token consisting of exactly `-`, in their
original relative order. -/
theorem claim_c9_filterCompilerOptions (args : List String) :
    filterCompilerOptions args = args.filter specKeptOption :=
  List.filter_congr fun x _ => keptOption_eq x

/-- C10: `createStatsNoter` returns the no-op noter for exactly `'none'`,
the S3 noter for exactly `'S3'`, and throws `Unknown stats type` for every
other value — including the parameterized `'S3(...)'` value of the
production configuration. -/
theorem claim_c10_createStatsNoter (props : String → Option String) (v : String)
    (hv : props "compilationStatsNotifier" = some v) :
    (v = "none" → createStatsNoter props = Except.ok NoterKind.nullNoter) ∧
    (v = "S3" → createStatsNoter props = Except.ok NoterKind.s3Noter) ∧
    (v ≠ "none" → v ≠ "S3" →
      createStatsNoter props = Except.error ("Unknown stats type '" ++ v ++ "'")) ∧
    createStatsNoter prodProp =
      Except.error "Unknown stats type 'S3(compiler-explorer-logs,compile-stats,us-east-1,15m)'" := by
  refine ⟨?_, ?_, ?_, rfl⟩
  · rintro rfl
    simp [createStatsNoter, hv]
  · rintro rfl
    simp [createStatsNoter, hv]
  · intro h1 h2
    unfold createStatsNoter
    rw [hv]
    simp only [Option.getD_some]

/-- Witness for C10: concrete getters for each branch. -/
theorem claim_c10_createStatsNoter_witness :
    createStatsNoter (fun _ => some "none") = Except.ok NoterKind.nullNoter ∧
    createStatsNoter (fun _ => some "S3") = Except.ok NoterKind.s3Noter ∧
    createStatsNoter (fun _ => some "S3(a,b)") =
      Except.error "Unknown stats type 'S3(a,b)'" :=
  ⟨(claim_c10_createStatsNoter (fun _ => some "none") "none" rfl).1 rfl,
   (claim_c10_createStatsNoter (fun _ => some "S3") "S3" rfl).2.1 rfl,
   (claim_c10_createStatsNoter (fun _ => some "S3(a,b)") "S3(a,b)" rfl).2.2.1
     (by decide) (by decide)⟩

end CompilerExplorer
